import Mathlib

/-!
# Verification of the scene-state / layout engine and the workflow orchestrator

Shallow embedding of the core modules of the math-learning-tool repository:

* `src/core/scene_state_manager.py` — `BoundingBox`, `Zone`, `SceneElement`,
  `SceneStateManager` with its placement search;
* `src/core/manim_builder.py` — the bookkeeping operations of `ManimCodeBuilder`;
* `src/backend/src/math_tutor/infrastructure/agents/langgraph_engine.py` — the
  routing functions and node wrappers of the LangGraph workflow.

Python floats are modelled as exact rationals (`ℚ`); every constant appearing in
the code (0.3, 0.5, 2.5, …) is used exactly, and no claim below depends on
floating-point rounding.  Python dicts (which preserve insertion order and keep
the original position of a key on overwrite) are modelled as association lists.
-/

/-- Embeds `BoundingBox` from `scene_state_manager.py`: a closed axis-aligned rectangle. -/
structure BoundingBox where
  x_min : ℚ
  y_min : ℚ
  x_max : ℚ
  y_max : ℚ
deriving DecidableEq, Repr

def BoundingBox.width (b : BoundingBox) : ℚ := b.x_max - b.x_min

def BoundingBox.height (b : BoundingBox) : ℚ := b.y_max - b.y_min

def BoundingBox.center (b : BoundingBox) : ℚ × ℚ :=
  ((b.x_min + b.x_max) / 2, (b.y_min + b.y_max) / 2)

/-- Embeds `BoundingBox.overlaps(self, other, margin=0.3)`:
`not (self.x_max + margin < other.x_min or self.x_min - margin > other.x_max or
self.y_max + margin < other.y_min or self.y_min - margin > other.y_max)`. -/
def BoundingBox.overlaps (a other : BoundingBox) (margin : ℚ) : Bool :=
  !(a.x_max + margin < other.x_min ||
    a.x_min - margin > other.x_max ||
    a.y_max + margin < other.y_min ||
    a.y_min - margin > other.y_max)

/-- The default value of the `margin` parameter of `overlaps` (0.3). -/
def defaultMargin : ℚ := 3 / 10

/-- A rectangle expanded outward by `d` on every side (used only to state the
spec's description of `overlaps`). -/
def BoundingBox.expand (b : BoundingBox) (d : ℚ) : BoundingBox :=
  ⟨b.x_min - d, b.y_min - d, b.x_max + d, b.y_max + d⟩

/-- Standard closed axis-aligned rectangle intersection test (used only to state
the spec's description of `overlaps`). -/
def BoundingBox.intersects (a b : BoundingBox) : Bool :=
  a.x_min ≤ b.x_max && b.x_min ≤ a.x_max &&
  a.y_min ≤ b.y_max && b.y_min ≤ a.y_max

/-- The spec's wording of `overlaps(a, b, margin)`: intersection after expanding
both rectangles outward by `margin/2` on every side. -/
def overlapsSpec (a b : BoundingBox) (margin : ℚ) : Bool :=
  BoundingBox.intersects (a.expand (margin / 2)) (b.expand (margin / 2))

/-- Embeds `Zone` enum from `scene_state_manager.py`. -/
inductive Zone where
  | top
  | center
  | bottom
  | left
  | right
deriving DecidableEq, Repr

/-- Embeds `Zone.value` (the string payload of each enum member). -/
def Zone.value : Zone → String
  | .top => "top"
  | .center => "center"
  | .bottom => "bottom"
  | .left => "left"
  | .right => "right"

/-- Embeds `ElementType` enum from `scene_state_manager.py`. -/
inductive ElementType where
  | text
  | math
  | shape
  | group
  | animated
deriving DecidableEq, Repr

/-- Embeds `SceneElement` dataclass.  The `metadata : Dict[str, Any]` field is not
modelled: its values are untyped and no claim inspects it. -/
structure SceneElement where
  name : String
  element_type : ElementType
  zone : Zone
  bbox : BoundingBox
  layer : Int := 0
  persistent : Bool := false
  parent : Option String := none
  created_at_step : Nat := 0
deriving DecidableEq, Repr

/-- The `self.elements` Python dict: an insertion-ordered association list from
element name to `SceneElement`. -/
abbrev Elements := List (String × SceneElement)

/-- Embeds `d[k] = v` on a Python dict: overwriting an existing key keeps its position,
a new key is appended at the end. -/
def dictInsert (d : Elements) (k : String) (v : SceneElement) : Elements :=
  if d.any (fun p => p.1 = k) then
    d.map (fun p => if p.1 = k then (k, v) else p)
  else
    d ++ [(k, v)]

/-- The mutable state of a `SceneStateManager`. -/
structure SceneStateManager where
  elements : Elements := []
  current_step : Nat := 0
  history : List Elements := []
deriving DecidableEq, Repr

/-- A freshly constructed `SceneStateManager()`. -/
def initManager : SceneStateManager := {}

/-- Embeds `SceneStateManager.ZONE_BOUNDS` class constant; `dict.get` on a missing key
(LEFT, RIGHT) yields `None`. -/
def ZONE_BOUNDS : Zone → Option BoundingBox
  | .top => some ⟨-6, 5/2, 6, 4⟩
  | .center => some ⟨-6, -2, 6, 2⟩
  | .bottom => some ⟨-6, -4, 6, -(5/2)⟩
  | .left => none
  | .right => none

/-- Embeds `SceneStateManager._bbox_in_zone`. -/
def bbox_in_zone (bbox zone_bbox : BoundingBox) : Bool :=
  bbox.x_min ≥ zone_bbox.x_min &&
  bbox.x_max ≤ zone_bbox.x_max &&
  bbox.y_min ≥ zone_bbox.y_min &&
  bbox.y_max ≤ zone_bbox.y_max

/-- Embeds `BoundingBox(x - w/2, y - h/2, x + w/2, y + h/2)`: the box of size `w × h`
centered at `(x, y)`, as constructed throughout `_calculate_safe_position`. -/
def centeredBox (x y w h : ℚ) : BoundingBox :=
  ⟨x - w / 2, y - h / 2, x + w / 2, y + h / 2⟩

/-- Embeds `SceneStateManager._calculate_safe_position(zone, width, height)`. -/
def SceneStateManager.calculate_safe_position (m : SceneStateManager)
    (zone : Zone) (width height : ℚ) : Option BoundingBox :=
  match ZONE_BOUNDS zone with
  | none => none
  | some zone_bbox =>
    let existing := (m.elements.map Prod.snd).filter (fun e => e.zone = zone)
    let cx := zone_bbox.center.1
    let cy := zone_bbox.center.2
    if existing.isEmpty then
      some (centeredBox cx cy width height)
    else
      let candidates : List (ℚ × ℚ) :=
        [(cx, cy),
         (zone_bbox.x_min + width / 2 + 1/2, cy),
         (zone_bbox.x_max - width / 2 - 1/2, cy),
         (cx, zone_bbox.y_max - height / 2 - 3/10),
         (cx, zone_bbox.y_min + height / 2 + 3/10)]
      (candidates.map (fun c => centeredBox c.1 c.2 width height)).find?
        (fun cb => bbox_in_zone cb zone_bbox &&
          !(existing.any (fun e => cb.overlaps e.bbox defaultMargin)))

/-- Renders a rational with two decimal digits, as Python's `f"{x:.2f}"` does.
(The rounding of the third decimal digit is half-up here; Python rounds the
underlying binary double half-even.  No claim inspects this text.) -/
def fmt2 (q : ℚ) : String :=
  let sign := if q < 0 then "-" else ""
  let n : Nat := (round (|q| * 100)).toNat
  sign ++ toString (n / 100) ++ "." ++
    (if n % 100 < 10 then "0" else "") ++ toString (n % 100)

/-- Embeds `SceneStateManager._generate_positioning_code` (all three zone branches emit
the same `move_to` shape). -/
def generate_positioning_code (name : String) (element : SceneElement)
    (bbox : BoundingBox) : String :=
  match element.zone with
  | .top => name ++ ".move_to([" ++ fmt2 bbox.center.1 ++ ", " ++
      fmt2 bbox.center.2 ++ ", 0])"
  | .bottom => name ++ ".move_to([" ++ fmt2 bbox.center.1 ++ ", " ++
      fmt2 bbox.center.2 ++ ", 0])"
  | _ => name ++ ".move_to([" ++ fmt2 bbox.center.1 ++ ", " ++
      fmt2 bbox.center.2 ++ ", 0])"

/-- The error string returned when the placement search fails:
`f"# 错误：{zone.value}区域已满，无法添加元素 {name}"`. -/
def zoneFullMsg (zone : Zone) (name : String) : String :=
  "# 错误：" ++ zone.value ++ "区域已满，无法添加元素 " ++ name

/-- The `(success, code, bbox)` triple returned by `add_element`. -/
structure AddResult where
  success : Bool
  code : String
  bbox : Option BoundingBox
deriving DecidableEq, Repr

/-- Embeds `SceneStateManager.add_element`: returns the result triple and the updated
manager.  (`**metadata` is not modelled, see `SceneElement`.) -/
def SceneStateManager.add_element (m : SceneStateManager) (name : String)
    (element_type : ElementType) (zone : Zone)
    (estimated_width estimated_height : ℚ) (persistent : Bool)
    (parent : Option String) : AddResult × SceneStateManager :=
  match m.calculate_safe_position zone estimated_width estimated_height with
  | none => (⟨false, zoneFullMsg zone name, none⟩, m)
  | some suggested_bbox =>
    let element : SceneElement :=
      { name := name
        element_type := element_type
        zone := zone
        bbox := suggested_bbox
        layer := 0
        persistent := persistent
        parent := parent
        created_at_step := m.current_step }
    (⟨true, generate_positioning_code name element suggested_bbox,
        some suggested_bbox⟩,
     { m with elements := dictInsert m.elements name element })

/-- Embeds `SceneStateManager.next_step`. -/
def SceneStateManager.next_step (m : SceneStateManager) : SceneStateManager :=
  { m with history := m.history ++ [m.elements],
           current_step := m.current_step + 1 }

/-- Embeds `SceneStateManager.remove_element` (`del` on a dict removes the single
binding of that key; on an association list with unique keys this is the same
as filtering the key out). -/
def SceneStateManager.remove_element (m : SceneStateManager) (name : String) :
    Bool × SceneStateManager :=
  if m.elements.any (fun p => p.1 = name) then
    (true, { m with elements := m.elements.filter (fun p => p.1 ≠ name) })
  else
    (false, m)

/-- Embeds `SceneStateManager.clear_non_persistent`.  The Python function has no
`return` statement, so its value is `None`; the first component models that
returned value (as an `Option Nat`, so that the spec's claimed count return is
statable against it). -/
def SceneStateManager.clear_non_persistent (m : SceneStateManager) :
    Option Nat × SceneStateManager :=
  let to_remove := (m.elements.filter (fun p => !p.2.persistent)).map Prod.fst
  (none, to_remove.foldl (fun acc n => (acc.remove_element n).2) m)

/-- Embeds `SceneStateManager.get_element`. -/
def SceneStateManager.get_element (m : SceneStateManager) (name : String) :
    Option SceneElement :=
  (m.elements.find? (fun p => p.1 = name)).map Prod.snd

/-- Embeds `SceneStateManager.list_elements`. -/
def SceneStateManager.list_elements (m : SceneStateManager)
    (zone : Option Zone) : List SceneElement :=
  match zone with
  | some z => (m.elements.map Prod.snd).filter (fun e => e.zone = z)
  | none => m.elements.map Prod.snd

/-- Embeds `SceneStateManager.check_overlap`. -/
def SceneStateManager.check_overlap (m : SceneStateManager)
    (name1 name2 : String) : Bool :=
  match m.get_element name1, m.get_element name2 with
  | some e1, some e2 => e1.bbox.overlaps e2.bbox defaultMargin
  | _, _ => false

/-- The `new_bbox` computed by `suggest_transform_target`: the box with the
source's current bbox center and the new content's width/height. -/
def transformTargetBox (source : SceneElement) (w h : ℚ) : BoundingBox :=
  centeredBox source.bbox.center.1 source.bbox.center.2 w h

/-- Embeds `SceneStateManager.suggest_transform_target`: returns the
`(can_transform, code)` pair and the (possibly) updated manager.  The Python
loop skips the entry named `source_name` and aborts at the first other element
whose bbox overlaps the hypothetical resized box; on success it mutates the
stored source element's bbox in place. -/
def SceneStateManager.suggest_transform_target (m : SceneStateManager)
    (source_name : String) (new_content_width new_content_height : ℚ) :
    (Bool × String) × SceneStateManager :=
  match m.get_element source_name with
  | none => ((false, "# 错误：元素 " ++ source_name ++ " 不存在"), m)
  | some source =>
    match m.elements.find? (fun p => p.1 ≠ source_name &&
        (transformTargetBox source new_content_width
          new_content_height).overlaps p.2.bbox defaultMargin) with
    | some p =>
      ((false, "# 警告：Transform后可能与 " ++ p.1 ++
          " 重叠，建议使用FadeOut+FadeIn"), m)
    | none =>
      ((true, "# Transform " ++ source_name ++ " 安全"),
       { m with elements := m.elements.map (fun p =>
           if p.1 = source_name then
             (p.1, { p.2 with
                     bbox := transformTargetBox source new_content_width
                       new_content_height })
           else p) })

/-! ## `ManimCodeBuilder` (from `src/core/manim_builder.py`) -/

/-- Embeds `ManimOperation` dataclass (its optional `metadata` dict is not modelled:
it is untyped and no claim inspects it). -/
structure ManimOperation where
  operation_type : String
  code : String
  affects_elements : List String
deriving DecidableEq, Repr

/-- The state of a `ManimCodeBuilder`: a fresh `SceneStateManager`, an
operation log, and the import set. -/
structure ManimCodeBuilder where
  state_manager : SceneStateManager := initManager
  operations : List ManimOperation := []
  imports : List String := ["from manim import *"]
deriving DecidableEq, Repr

/-- Embeds `ManimCodeBuilder.start_step(step_number, step_description)`: calls
`next_step()` on the state manager and logs a step-marker operation. -/
def ManimCodeBuilder.start_step (b : ManimCodeBuilder) (step_number : Nat)
    (step_description : String) : String × ManimCodeBuilder :=
  let sm := b.state_manager.next_step
  let code := "\n        # ========== 步骤 " ++ toString step_number ++ ": " ++
    step_description ++ " ==========\n"
  (code, { b with
           state_manager := sm
           operations := b.operations ++ [⟨"step_marker", code, []⟩] })

/-- Embeds `ManimCodeBuilder.wait(duration)`: logs a wait operation.  (The rendering
of the duration in the emitted text is Python's float `str`; `toString` stands
in for it, no claim inspects the text.) -/
def ManimCodeBuilder.wait (b : ManimCodeBuilder) (duration : ℚ) :
    String × ManimCodeBuilder :=
  let code := "self.wait(" ++ toString duration ++ ")\n"
  (code, { b with operations := b.operations ++ [⟨"wait", code, []⟩] })

/-- Embeds `ManimCodeBuilder.add_comment(comment)`: logs a comment operation. -/
def ManimCodeBuilder.add_comment (b : ManimCodeBuilder) (comment : String) :
    String × ManimCodeBuilder :=
  let code := "# " ++ comment ++ "\n"
  (code, { b with operations := b.operations ++ [⟨"comment", code, []⟩] })

/-! ## The LangGraph workflow (from `langgraph_engine.py`)

The claims under scrutiny concern the `solve → validate` retry loop and the
`visualize → execute → debug` loop, driven by `_route_after_validate` and
`_route_after_execute` and the `_sync_*` node wrappers.  The fields of
`WorkflowState` carried here are exactly those these functions read or write;
the defaults are the `state.get(..., default)` fallbacks of the source.

The outcome of each LLM / renderer call is an input of the model: an
`Env` gives, for the `k`-th invocation of a node, the data that invocation
produces.  The graph's nodes that are off the claims' paths (classify,
understand, solve_simple) never touch `solve_attempts` or `debug_attempts`,
which both start at 0. -/

/-- The orchestrator-relevant slice of `WorkflowState` (TypedDict).  Defaults
are the `state.get` fallbacks used by the routing functions. -/
structure WorkflowState where
  is_valid : Bool := true
  solve_attempts : Nat := 0
  manim_code : String := ""
  video_path : Option String := none
  error_message : String := ""
  error_type : String := "none"
  debug_attempts : Nat := 0
  status : String := "pending"
deriving DecidableEq, Repr

/-- The nodes of the graph on the retry paths; `terminal` is LangGraph's `END`. -/
inductive WNode where
  | solve
  | validate
  | visualize
  | execute
  | debug
  | fallback
  | terminal
deriving DecidableEq, Repr

/-- Embeds `_route_after_validate`. -/
def route_after_validate (s : WorkflowState) : WNode :=
  if s.is_valid then .visualize
  else if s.solve_attempts < 2 then .solve
  else .visualize

/-- Embeds `_route_after_execute`.  All three error-type branches of the source return
`"debug"`; they are kept separate here as in the code. -/
def route_after_execute (s : WorkflowState) : WNode :=
  if s.video_path.isSome then .terminal
  else if s.debug_attempts ≥ 3 then .fallback
  else if s.error_type = "syntax" then .debug
  else if s.error_type = "structure" then .debug
  else .debug

/-- The partial update returned by one invocation of `execute_node`. -/
structure ExecOutcome where
  video_path : Option String
  error_message : String
  error_type : String

/-- The externally produced data of each node invocation: `validate_results k`
is the `is_valid` produced by the `k`-th `validate` call, `execute_results k`
the outcome of the `k`-th `execute` call, and the code strings produced by the
`k`-th `visualize` / `debug` calls. -/
structure Env where
  validate_results : Nat → Bool
  execute_results : Nat → ExecOutcome
  visualize_codes : Nat → String
  debug_codes : Nat → String

/-- A machine configuration: the node about to run, the workflow state, and
per-node invocation counters (used to index `Env` and to count invocations). -/
structure Machine where
  node : WNode
  s : WorkflowState
  solve_calls : Nat := 0
  validate_calls : Nat := 0
  visualize_calls : Nat := 0
  execute_calls : Nat := 0
  debug_calls : Nat := 0
deriving Repr

/-- One transition of the compiled graph: run the current node's state update
(`_sync_solving` increments `solve_attempts`, `_sync_debug` increments
`debug_attempts`, `execute_node` writes `video_path` / `error_message` /
`error_type`, `fallback_node` sets `status = "fallback"`), then follow the
conditional or regular edge.  `terminal` is absorbing. -/
def step (env : Env) (mc : Machine) : Machine :=
  match mc.node with
  | .solve =>
    { mc with
      node := .validate
      s := { mc.s with solve_attempts := mc.s.solve_attempts + 1 }
      solve_calls := mc.solve_calls + 1 }
  | .validate =>
    let s' := { mc.s with is_valid := env.validate_results mc.validate_calls }
    { mc with
      node := route_after_validate s'
      s := s'
      validate_calls := mc.validate_calls + 1 }
  | .visualize =>
    let s' := { mc.s with manim_code := env.visualize_codes mc.visualize_calls }
    { mc with
      node := .execute
      s := s'
      visualize_calls := mc.visualize_calls + 1 }
  | .execute =>
    let r := env.execute_results mc.execute_calls
    let s' := { mc.s with
                video_path := r.video_path
                error_message := r.error_message
                error_type := r.error_type }
    { mc with
      node := route_after_execute s'
      s := s'
      execute_calls := mc.execute_calls + 1 }
  | .debug =>
    let s' := { mc.s with
                manim_code := env.debug_codes mc.debug_calls
                debug_attempts := mc.s.debug_attempts + 1 }
    { mc with
      node := .execute
      s := s'
      debug_calls := mc.debug_calls + 1 }
  | .fallback =>
    { mc with node := .terminal, s := { mc.s with status := "fallback" } }
  | .terminal => mc

/-- Runs `k` transitions of the graph. -/
def stepIter (env : Env) : Nat → Machine → Machine
  | 0, mc => mc
  | k + 1, mc => stepIter env k (step env mc)

/-! ## Helper lemmas -/

theorem overlaps_eq_true_iff (a b : BoundingBox) (m : ℚ) :
    a.overlaps b m = true ↔
      ¬(a.x_max + m < b.x_min ∨ a.x_min - m > b.x_max ∨
        a.y_max + m < b.y_min ∨ a.y_min - m > b.y_max) := by
  simp only [BoundingBox.overlaps, Bool.not_eq_true', Bool.or_eq_false_iff,
    decide_eq_false_iff_not, not_or]
  tauto

theorem overlaps_comm (a b : BoundingBox) (m : ℚ) :
    a.overlaps b m = b.overlaps a m := by
  rw [Bool.eq_iff_iff, overlaps_eq_true_iff, overlaps_eq_true_iff]
  constructor <;>
    · intro h hc
      apply h
      rcases hc with h1 | h1 | h1 | h1
      · exact Or.inr (Or.inl (by linarith))
      · exact Or.inl (by linarith)
      · exact Or.inr (Or.inr (Or.inr (by linarith)))
      · exact Or.inr (Or.inr (Or.inl (by linarith)))

theorem overlaps_eq_overlapsSpec (a b : BoundingBox) (m : ℚ) :
    a.overlaps b m = overlapsSpec a b m := by
  rw [Bool.eq_iff_iff, overlaps_eq_true_iff]
  simp only [overlapsSpec, BoundingBox.intersects, BoundingBox.expand,
    Bool.and_eq_true, decide_eq_true_eq]
  constructor
  · intro h
    push_neg at h
    obtain ⟨h1, h2, h3, h4⟩ := h
    refine ⟨⟨⟨?_, ?_⟩, ?_⟩, ?_⟩ <;> linarith
  · rintro ⟨⟨⟨h1, h2⟩, h3⟩, h4⟩ hc
    rcases hc with h5 | h5 | h5 | h5 <;> linarith

theorem mem_dictInsert {d : Elements} {k : String} {v : SceneElement}
    {p : String × SceneElement} (hp : p ∈ dictInsert d k v) :
    p = (k, v) ∨ (p ∈ d ∧ p.1 ≠ k) := by
  unfold dictInsert at hp
  split at hp
  · rename_i hany
    obtain ⟨q, hq, hfq⟩ := List.mem_map.mp hp
    by_cases hqk : q.1 = k
    · left
      rw [if_pos hqk] at hfq
      exact hfq.symm
    · right
      rw [if_neg hqk] at hfq
      exact hfq ▸ ⟨hq, hqk⟩
  · rename_i hany
    have hkeys : ∀ q ∈ d, q.1 ≠ k := by
      intro q hq hqk
      exact hany (List.any_eq_true.mpr ⟨q, hq, by simp [hqk]⟩)
    rcases List.mem_append.mp hp with h | h
    · exact Or.inr ⟨h, hkeys p h⟩
    · left
      simpa using h

theorem zone_bounds_of_left : ZONE_BOUNDS Zone.left = none := rfl

theorem zone_bounds_of_right : ZONE_BOUNDS Zone.right = none := rfl

/-- Unfolding `add_element` when the placement search fails. -/
theorem add_element_of_calc_none {m : SceneStateManager} {n : String}
    {et : ElementType} {z : Zone} {w h : ℚ} {pers : Bool} {par : Option String}
    (hc : m.calculate_safe_position z w h = none) :
    m.add_element n et z w h pers par = (⟨false, zoneFullMsg z n, none⟩, m) := by
  unfold SceneStateManager.add_element
  rw [hc]

/-- The `SceneElement` record that `add_element` creates and stores. -/
def newElement (n : String) (et : ElementType) (z : Zone) (b : BoundingBox)
    (pers : Bool) (par : Option String) (cs : Nat) : SceneElement :=
  ⟨n, et, z, b, 0, pers, par, cs⟩

/-- Unfolding `add_element` when the placement search succeeds. -/
theorem add_element_of_calc_some {m : SceneStateManager} {n : String}
    {et : ElementType} {z : Zone} {w h : ℚ} {pers : Bool} {par : Option String}
    {b : BoundingBox} (hc : m.calculate_safe_position z w h = some b) :
    m.add_element n et z w h pers par =
      (⟨true,
        generate_positioning_code n (newElement n et z b pers par m.current_step) b,
        some b⟩,
       { m with elements :=
          dictInsert m.elements n (newElement n et z b pers par m.current_step) }) := by
  unfold SceneStateManager.add_element
  rw [hc]
  rfl

theorem add_element_success_iff {m : SceneStateManager} {n : String}
    {et : ElementType} {z : Zone} {w h : ℚ} {pers : Bool} {par : Option String} :
    (m.add_element n et z w h pers par).1.success = true ↔
      ∃ b, m.calculate_safe_position z w h = some b := by
  constructor
  · intro hs
    cases hc : m.calculate_safe_position z w h with
    | none => rw [add_element_of_calc_none hc] at hs; exact absurd hs (by simp)
    | some b => exact ⟨b, rfl⟩
  · rintro ⟨b, hc⟩
    rw [add_element_of_calc_some hc]

/-- A successful placement search never overlaps any element already recorded
in the target zone (with the default margin). -/
theorem calc_safe_no_overlap {m : SceneStateManager} {z : Zone} {w h : ℚ}
    {b : BoundingBox} (hc : m.calculate_safe_position z w h = some b) :
    ∀ e ∈ m.elements.map Prod.snd, e.zone = z →
      b.overlaps e.bbox defaultMargin = false := by
  intro e he hez
  unfold SceneStateManager.calculate_safe_position at hc
  cases hzb : ZONE_BOUNDS z with
  | none => rw [hzb] at hc; exact absurd hc (by simp)
  | some zb =>
    rw [hzb] at hc
    simp only at hc
    have hmem : e ∈ (m.elements.map Prod.snd).filter (fun e => e.zone = z) :=
      List.mem_filter.mpr ⟨he, by simp [hez]⟩
    split at hc
    · rename_i hempty
      rw [List.isEmpty_iff] at hempty
      rw [hempty] at hmem
      exact absurd hmem (List.not_mem_nil e)
    · have hpred := List.find?_some hc
      simp only [Bool.and_eq_true, Bool.not_eq_true', List.any_eq_false,
        Bool.not_eq_true] at hpred
      exact hpred.2 e hmem

/-- A successful placement search in a zone that already holds an element
returns a box inside the zone's bounds. -/
theorem calc_safe_in_zone_of_nonempty {m : SceneStateManager} {z : Zone}
    {w h : ℚ} {b zb : BoundingBox} (hzb : ZONE_BOUNDS z = some zb)
    (hne : (m.elements.map Prod.snd).filter (fun e => e.zone = z) ≠ [])
    (hc : m.calculate_safe_position z w h = some b) :
    bbox_in_zone b zb = true := by
  unfold SceneStateManager.calculate_safe_position at hc
  rw [hzb] at hc
  simp only at hc
  split at hc
  · rename_i hempty
    rw [List.isEmpty_iff] at hempty
    exact absurd hempty hne
  · have hpred := List.find?_some hc
    simp only [Bool.and_eq_true] at hpred
    exact hpred.1

/-- The placement search into an empty zone returns the zone-centered box. -/
theorem calc_safe_of_empty {m : SceneStateManager} {z : Zone} {w h : ℚ}
    {zb : BoundingBox} (hzb : ZONE_BOUNDS z = some zb)
    (hemp : (m.elements.map Prod.snd).filter (fun e => e.zone = z) = []) :
    m.calculate_safe_position z w h =
      some (centeredBox zb.center.1 zb.center.2 w h) := by
  unfold SceneStateManager.calculate_safe_position
  rw [hzb]
  simp only [hemp, List.isEmpty_nil, if_true]

/-! ## Reachability by `add_element` and the no-overlap invariant -/

/-- Manager states reachable from a fresh `SceneStateManager()` by sequences of
`add_element` calls that all return `success=True` (the quantification of the
no-overlap claim). -/
inductive ReachableByAdds : SceneStateManager → Prop where
  | init : ReachableByAdds initManager
  | step (m : SceneStateManager) (n : String) (et : ElementType) (z : Zone)
      (w h : ℚ) (pers : Bool) (par : Option String) :
      ReachableByAdds m →
      (m.add_element n et z w h pers par).1.success = true →
      ReachableByAdds (m.add_element n et z w h pers par).2

/-- No two distinct live elements sharing a zone have overlapping bounding
boxes (with the default margin). -/
def no_overlap_inv (m : SceneStateManager) : Prop :=
  ∀ p ∈ m.elements, ∀ q ∈ m.elements, p.1 ≠ q.1 → p.2.zone = q.2.zone →
    p.2.bbox.overlaps q.2.bbox defaultMargin = false

/-- C1: the no-overlap invariant holds in every state reachable by successful
`add_element` calls.

The spec states: for all sequences of `add_element` calls that return
`success=True`, for every pair of live elements sharing a zone,
`bbox.overlaps(other.bbox, margin)` is false (default margin). -/
theorem no_overlap_invariant (m : SceneStateManager) (hm : ReachableByAdds m) :
    no_overlap_inv m := by
  induction hm with
  | init =>
    intro p hp
    exact absurd hp (List.not_mem_nil p)
  | step m n et z w h pers par hr hs ih =>
    obtain ⟨b, hc⟩ := add_element_success_iff.mp hs
    rw [add_element_of_calc_some hc]
    intro p hp q hq hpq hzone
    simp only at hp hq
    have hnew : ∀ r, r ∈ m.elements → r.1 ≠ n →
        r.2.zone = z → b.overlaps r.2.bbox defaultMargin = false := by
      intro r hrm hrn hrz
      exact calc_safe_no_overlap hc r.2 (List.mem_map_of_mem Prod.snd hrm) hrz
    rcases mem_dictInsert hp with hp1 | ⟨hp1, hp2⟩ <;>
      rcases mem_dictInsert hq with hq1 | ⟨hq1, hq2⟩
    · rw [hp1, hq1] at hpq
      exact absurd rfl hpq
    · rw [hp1]
      rw [hp1] at hzone
      exact hnew q hq1 hq2 (by simpa [newElement] using hzone.symm)
    · rw [hq1]
      rw [hq1] at hzone
      rw [overlaps_comm]
      exact hnew p hp1 hp2 (by simpa [newElement] using hzone)
    · exact ih p hp1 q hq1 hpq hzone

/-- Witness state: two successful `add_element` calls (into TOP and CENTER). -/
def managerAB : SceneStateManager :=
  ((initManager.add_element "a" ElementType.text Zone.top 2 1 false
      none).2.add_element "b" ElementType.math Zone.center 3 1 false none).2

/-- Witness for C1: the invariant, instantiated at the concrete two-element
state `managerAB`. -/
theorem no_overlap_invariant_witness : no_overlap_inv managerAB :=
  no_overlap_invariant managerAB
    (ReachableByAdds.step _ "b" ElementType.math Zone.center 3 1 false none
      (ReachableByAdds.step _ "a" ElementType.text Zone.top 2 1 false none
        ReachableByAdds.init rfl) rfl)

/-- C8: `overlaps(a, b, margin)` equals the standard axis-aligned intersection
test after expanding both rectangles outward by `margin/2` on every side, and
it is commutative (for all boxes, well-formed or not, and every margin). -/
theorem overlaps_spec_and_comm (a b : BoundingBox) (margin : ℚ) :
    a.overlaps b margin = overlapsSpec a b margin ∧
    a.overlaps b margin = b.overlaps a margin :=
  ⟨overlaps_eq_overlapsSpec a b margin, overlaps_comm a b margin⟩

/-- If the placement search succeeds then the target zone has bounds. -/
theorem calc_some_zone_bounds {m : SceneStateManager} {z : Zone} {w h : ℚ}
    {b : BoundingBox} (hc : m.calculate_safe_position z w h = some b) :
    ∃ zb, ZONE_BOUNDS z = some zb := by
  unfold SceneStateManager.calculate_safe_position at hc
  cases hzb : ZONE_BOUNDS z with
  | none => rw [hzb] at hc; exact absurd hc (by simp)
  | some zb => exact ⟨zb, rfl⟩

/-- A successful placement of an element that fits the zone's dimensions lands
inside the zone (covers the empty-zone centered placement). -/
theorem calc_safe_in_zone_of_fit {m : SceneStateManager} {z : Zone} {w h : ℚ}
    {b zb : BoundingBox} (hzb : ZONE_BOUNDS z = some zb)
    (hw : w ≤ zb.width) (hh : h ≤ zb.height)
    (hc : m.calculate_safe_position z w h = some b) :
    bbox_in_zone b zb = true := by
  by_cases hemp : (m.elements.map Prod.snd).filter (fun e => e.zone = z) = []
  · rw [calc_safe_of_empty hzb hemp] at hc
    injection hc with hbe
    subst hbe
    unfold BoundingBox.width at hw
    unfold BoundingBox.height at hh
    simp only [bbox_in_zone, centeredBox, BoundingBox.center, ge_iff_le,
      Bool.and_eq_true, decide_eq_true_eq]
    refine ⟨⟨⟨?_, ?_⟩, ?_⟩, ?_⟩ <;> linarith
  · exact calc_safe_in_zone_of_nonempty hzb hemp hc

/-- C2 counterexample: on an empty TOP zone, `add_element("a", TEXT, TOP, 20, 1)`
succeeds, yet the returned bbox is not inside the TOP zone bounds - the
first-element branch of `_calculate_safe_position` performs no
`_bbox_in_zone` check. -/
theorem zone_containment_cex :
    (initManager.add_element "a" ElementType.text Zone.top 20 1 false
        none).1.success = true ∧
    ZONE_BOUNDS Zone.top = some ⟨-6, 5/2, 6, 4⟩ ∧
    ∃ b, (initManager.add_element "a" ElementType.text Zone.top 20 1 false
        none).1.bbox = some b ∧
      bbox_in_zone b ⟨-6, 5/2, 6, 4⟩ = false := by
  refine ⟨rfl, rfl, centeredBox ((-6 + 6) / 2) ((5/2 + 4) / 2) 20 1, rfl, ?_⟩
  rw [Bool.eq_false_iff]
  intro hT
  simp only [bbox_in_zone, centeredBox, ge_iff_le, Bool.and_eq_true,
    decide_eq_true_eq] at hT
  obtain ⟨⟨⟨h1, _⟩, _⟩, _⟩ := hT
  norm_num at h1

/-- C2 amended: every element placed with `success=True` lies inside its zone's
bounds provided the zone already held an element, or the element's estimated
size fits within the zone's dimensions.  (The unrestricted claim fails: the
first element placed into an empty zone is centered without any containment
check, see `zone_containment_cex`.) -/
theorem zone_containment_amended (m : SceneStateManager) (n : String)
    (et : ElementType) (z : Zone) (w h : ℚ) (pers : Bool) (par : Option String)
    (zb b : BoundingBox) (hzb : ZONE_BOUNDS z = some zb)
    (hfit : (m.elements.map Prod.snd).filter (fun e => e.zone = z) ≠ [] ∨
      (w ≤ zb.width ∧ h ≤ zb.height))
    (hb : (m.add_element n et z w h pers par).1.bbox = some b) :
    bbox_in_zone b zb = true := by
  have hcalc : m.calculate_safe_position z w h = some b := by
    cases hc : m.calculate_safe_position z w h with
    | none =>
      rw [add_element_of_calc_none hc] at hb
      exact absurd hb (by simp)
    | some b2 =>
      rw [add_element_of_calc_some hc] at hb
      simp only [Option.some.injEq] at hb
      subst hb
      rfl
  rcases hfit with hne | ⟨hw, hh⟩
  · exact calc_safe_in_zone_of_nonempty hzb hne hcalc
  · exact calc_safe_in_zone_of_fit hzb hw hh hcalc

/-- Witness for C2 (amended): a 2x1 element placed into the empty TOP zone
lands inside the TOP bounds. -/
theorem zone_containment_amended_witness :
    bbox_in_zone (centeredBox ((-6 + 6) / 2) ((5/2 + 4) / 2) 2 1)
      ⟨-6, 5/2, 6, 4⟩ = true :=
  zone_containment_amended initManager "a" ElementType.text Zone.top 2 1 false
    none ⟨-6, 5/2, 6, 4⟩ (centeredBox ((-6 + 6) / 2) ((5/2 + 4) / 2) 2 1) rfl
    (Or.inr ⟨by norm_num [BoundingBox.width], by norm_num [BoundingBox.height]⟩)
    rfl

/-- C10: `add_element` targeting `Zone.LEFT` or `Zone.RIGHT` always fails with
the zone-full error, a `None` bbox and an unchanged manager (those zones have
no entry in `ZONE_BOUNDS`); consequently no reachable state holds an element
in those zones. -/
theorem left_right_zones_unusable :
    (∀ (m : SceneStateManager) (n : String) (et : ElementType) (w h : ℚ)
        (pers : Bool) (par : Option String) (z : Zone),
        z = Zone.left ∨ z = Zone.right →
        m.add_element n et z w h pers par = (⟨false, zoneFullMsg z n, none⟩, m)) ∧
    (∀ m, ReachableByAdds m → ∀ p ∈ m.elements,
        p.2.zone ≠ Zone.left ∧ p.2.zone ≠ Zone.right) := by
  constructor
  · intro m n et w h pers par z hz
    rcases hz with rfl | rfl <;> exact add_element_of_calc_none rfl
  · intro m hm
    induction hm with
    | init =>
      intro p hp
      exact absurd hp (List.not_mem_nil p)
    | step m n et z w h pers par hr hs ih =>
      obtain ⟨b, hc⟩ := add_element_success_iff.mp hs
      rw [add_element_of_calc_some hc]
      intro p hp
      simp only at hp
      rcases mem_dictInsert hp with hp1 | ⟨hp1, _⟩
      · obtain ⟨zb, hzb⟩ := calc_some_zone_bounds hc
        rw [hp1]
        have hz : ¬(z = Zone.left ∨ z = Zone.right) := by
          rintro (rfl | rfl) <;> exact absurd hzb (by simp [ZONE_BOUNDS])
        constructor <;> intro hzeq
        · exact hz (Or.inl (by simpa [newElement] using hzeq))
        · exact hz (Or.inr (by simpa [newElement] using hzeq))
      · exact ih p hp1

/-- Witness for C10: adding to LEFT on a fresh manager fails with the
zone-full error and leaves the manager unchanged. -/
theorem left_right_zones_unusable_witness :
    initManager.add_element "x" ElementType.text Zone.left 1 1 false none =
      (⟨false, zoneFullMsg Zone.left "x", none⟩, initManager) :=
  left_right_zones_unusable.1 initManager "x" ElementType.text 1 1 false none
    Zone.left (Or.inl rfl)

/-! ## C4: transform safety -/

theorem stt_of_get_none {m : SceneStateManager} {src : String} {w h : ℚ}
    (hg : m.get_element src = none) :
    m.suggest_transform_target src w h =
      ((false, "# 错误：元素 " ++ src ++ " 不存在"), m) := by
  unfold SceneStateManager.suggest_transform_target
  rw [hg]

theorem stt_of_found {m : SceneStateManager} {src : String} {w h : ℚ}
    {source : SceneElement} {p : String × SceneElement}
    (hg : m.get_element src = some source)
    (hf : m.elements.find? (fun p => p.1 ≠ src &&
        (transformTargetBox source w h).overlaps p.2.bbox defaultMargin) =
      some p) :
    m.suggest_transform_target src w h =
      ((false, "# 警告：Transform后可能与 " ++ p.1 ++
          " 重叠，建议使用FadeOut+FadeIn"), m) := by
  unfold SceneStateManager.suggest_transform_target
  rw [hg]
  simp only [hf]

theorem stt_of_safe {m : SceneStateManager} {src : String} {w h : ℚ}
    {source : SceneElement} (hg : m.get_element src = some source)
    (hf : m.elements.find? (fun p => p.1 ≠ src &&
        (transformTargetBox source w h).overlaps p.2.bbox defaultMargin) =
      none) :
    m.suggest_transform_target src w h =
      ((true, "# Transform " ++ src ++ " 安全"),
       { m with elements := m.elements.map (fun p =>
           if p.1 = src then
             (p.1, { p.2 with bbox := transformTargetBox source w h })
           else p) }) := by
  unfold SceneStateManager.suggest_transform_target
  rw [hg]
  simp only [hf]

/-- C4: `suggest_transform_target` computes the hypothetical box of the new
size centered at the source's current bbox center and checks it against every
other live element; whenever it returns `can_transform=False` the manager is
left entirely unchanged, and when it returns `True` the only change is the
source's bbox, which takes the new size with the same center. -/
theorem transform_safety (m : SceneStateManager) (src : String) (w h : ℚ) :
    ((m.suggest_transform_target src w h).1.1 = false →
      (m.suggest_transform_target src w h).2 = m) ∧
    ((m.suggest_transform_target src w h).1.1 = true →
      ∃ source, m.get_element src = some source ∧
        (∀ p ∈ m.elements, p.1 ≠ src →
          (transformTargetBox source w h).overlaps p.2.bbox defaultMargin =
            false) ∧
        (transformTargetBox source w h).center = source.bbox.center ∧
        (transformTargetBox source w h).width = w ∧
        (transformTargetBox source w h).height = h ∧
        (m.suggest_transform_target src w h).2 =
          { m with elements := m.elements.map (fun p =>
              if p.1 = src then
                (p.1, { p.2 with bbox := transformTargetBox source w h })
              else p) }) := by
  cases hg : m.get_element src with
  | none =>
    rw [stt_of_get_none hg]
    exact ⟨fun _ => rfl, fun hT => absurd hT (by simp)⟩
  | some source =>
    cases hf : m.elements.find? (fun p => p.1 ≠ src &&
        (transformTargetBox source w h).overlaps p.2.bbox defaultMargin) with
    | some q =>
      rw [stt_of_found hg hf]
      exact ⟨fun _ => rfl, fun hT => absurd hT (by simp)⟩
    | none =>
      rw [stt_of_safe hg hf]
      refine ⟨fun hF => absurd hF (by simp),
        fun _ => ⟨source, rfl, ?_, ?_, ?_, ?_, rfl⟩⟩
      · intro p hp hpn
        have := List.find?_eq_none.mp hf p hp
        simp only [Bool.and_eq_true, decide_eq_true_eq, not_and] at this
        exact Bool.eq_false_iff.mpr (this hpn)
      · simp only [transformTargetBox, centeredBox, BoundingBox.center,
          Prod.mk.injEq]
        constructor <;> ring
      · simp only [transformTargetBox, centeredBox, BoundingBox.width]
        ring
      · simp only [transformTargetBox, centeredBox, BoundingBox.height]
        ring

/-- Concrete state for the C4 witness: one element in the CENTER zone. -/
def managerT : SceneStateManager :=
  { elements := [("a", ⟨"a", ElementType.math, Zone.center, ⟨-1, -1, 1, 1⟩, 0,
      false, none, 0⟩)]
    current_step := 0
    history := [] }

/-- Witness for C4, instantiated at `managerT` with a 2x1 resize. -/
theorem transform_safety_witness :
    ((managerT.suggest_transform_target "a" 2 1).1.1 = false →
      (managerT.suggest_transform_target "a" 2 1).2 = managerT) ∧
    ((managerT.suggest_transform_target "a" 2 1).1.1 = true →
      ∃ source, managerT.get_element "a" = some source ∧
        (∀ p ∈ managerT.elements, p.1 ≠ "a" →
          (transformTargetBox source 2 1).overlaps p.2.bbox defaultMargin =
            false) ∧
        (transformTargetBox source 2 1).center = source.bbox.center ∧
        (transformTargetBox source 2 1).width = 2 ∧
        (transformTargetBox source 2 1).height = 1 ∧
        (managerT.suggest_transform_target "a" 2 1).2 =
          { managerT with elements := managerT.elements.map (fun p =>
              if p.1 = "a" then
                (p.1, { p.2 with bbox := transformTargetBox source 2 1 })
              else p) }) :=
  transform_safety managerT "a" 2 1

/-! ## C6: clear_non_persistent -/

theorem remove_element_state (m : SceneStateManager) (n : String) :
    (m.remove_element n).2.elements = m.elements.filter (fun p => p.1 ≠ n) ∧
    (m.remove_element n).2.current_step = m.current_step ∧
    (m.remove_element n).2.history = m.history := by
  unfold SceneStateManager.remove_element
  split
  · exact ⟨rfl, rfl, rfl⟩
  · rename_i hno
    refine ⟨?_, rfl, rfl⟩
    have hkeys : ∀ q ∈ m.elements, q.1 ≠ n := by
      intro q hq hqk
      exact hno (List.any_eq_true.mpr ⟨q, hq, by simp [hqk]⟩)
    symm
    apply List.filter_eq_self.mpr
    intro q hq
    simpa using hkeys q hq

theorem foldl_remove_state (names : List String) (m : SceneStateManager) :
    (names.foldl (fun acc n => (acc.remove_element n).2) m).elements =
      m.elements.filter (fun p => !names.contains p.1) ∧
    (names.foldl (fun acc n => (acc.remove_element n).2) m).current_step =
      m.current_step ∧
    (names.foldl (fun acc n => (acc.remove_element n).2) m).history =
      m.history := by
  induction names generalizing m with
  | nil => simp
  | cons a t ih =>
    simp only [List.foldl_cons]
    obtain ⟨h1, h2, h3⟩ := ih (m.remove_element a).2
    obtain ⟨g1, g2, g3⟩ := remove_element_state m a
    refine ⟨?_, by rw [h2, g2], by rw [h3, g3]⟩
    rw [h1, g1, List.filter_filter]
    apply List.filter_congr
    intro p hp
    simp only [List.contains_cons, Bool.not_or, Bool.and_comm, decide_not]
    rw [Bool.eq_iff_iff]
    simp

/-- Members of an association list with pairwise distinct keys are determined
by their key. -/
theorem eq_of_fst_eq_of_nodup_keys {l : Elements}
    (hnd : (l.map Prod.fst).Nodup) {p q : String × SceneElement}
    (hp : p ∈ l) (hq : q ∈ l) (hk : p.1 = q.1) : p = q := by
  exact List.inj_on_of_nodup_map hnd hp hq hk

/-- C6 (amended): `clear_non_persistent()` removes exactly the elements whose
`persistent` flag is false — every persistent element stays, in order and
unchanged — but it returns `None` (the removed count is only written to the
log), not the count of removed elements. -/
theorem clear_non_persistent_amended (m : SceneStateManager)
    (hnd : (m.elements.map Prod.fst).Nodup) :
    (m.clear_non_persistent).1 = none ∧
    (m.clear_non_persistent).2.elements =
      m.elements.filter (fun p => p.2.persistent) ∧
    (m.clear_non_persistent).2.current_step = m.current_step ∧
    (m.clear_non_persistent).2.history = m.history := by
  unfold SceneStateManager.clear_non_persistent
  obtain ⟨h1, h2, h3⟩ := foldl_remove_state
    ((m.elements.filter (fun p => !p.2.persistent)).map Prod.fst) m
  refine ⟨rfl, ?_, h2, h3⟩
  rw [h1]
  apply List.filter_congr
  intro p hp
  cases hper : p.2.persistent with
  | true =>
    rw [Bool.not_eq_true']
    rw [Bool.eq_false_iff]
    intro hcont
    simp only [List.contains_eq_any_beq, List.any_eq_true, List.mem_map,
      List.mem_filter, beq_iff_eq] at hcont
    obtain ⟨x, ⟨q, ⟨hq, hqper⟩, hqx⟩, hpx⟩ := hcont
    have hqp : q = p := eq_of_fst_eq_of_nodup_keys hnd hq hp (by rw [hqx, ← hpx])
    rw [hqp, hper] at hqper
    simp at hqper
  | false =>
    rw [Bool.not_eq_false']
    simp only [List.contains_eq_any_beq, List.any_eq_true, List.mem_map,
      List.mem_filter, beq_iff_eq]
    exact ⟨p.1, ⟨p, ⟨hp, by simp [hper]⟩, rfl⟩, rfl⟩

/-- Concrete state with one non-persistent element (for the C6 counterexample). -/
def managerC6 : SceneStateManager :=
  { elements := [("tmp", ⟨"tmp", ElementType.text, Zone.top, ⟨-1, 3, 1, 4⟩, 0,
      false, none, 0⟩)]
    current_step := 0
    history := [] }

/-- C6 counterexample: on a state holding exactly one non-persistent element,
`clear_non_persistent()` does remove it, but the call's return value is `None`,
not the removal count `1` that the claim asserts (the Python function has no
`return` statement). -/
theorem clear_non_persistent_cex :
    (managerC6.elements.filter (fun p => !p.2.persistent)).length = 1 ∧
    (managerC6.clear_non_persistent).2.elements = [] ∧
    (managerC6.clear_non_persistent).1 = none ∧
    (managerC6.clear_non_persistent).1 ≠ some 1 := by
  refine ⟨rfl, rfl, rfl, fun hx => Option.noConfusion hx⟩

/-- Concrete state with one persistent and one non-persistent element (the
spec's own clear_non_persistent scenario), for the C6 witness. -/
def managerC6w : SceneStateManager :=
  { elements :=
      [("title", ⟨"title", ElementType.text, Zone.top, ⟨-2, 3, 2, 4⟩, 0, true,
          none, 0⟩),
       ("tmp", ⟨"tmp", ElementType.math, Zone.center, ⟨-1, -1, 1, 1⟩, 0, false,
          none, 0⟩)]
    current_step := 1
    history := [[]] }

/-- Witness for C6 (amended), instantiated at `managerC6w`: only the
persistent element survives and the returned value is `None`. -/
theorem clear_non_persistent_amended_witness :
    (managerC6w.clear_non_persistent).1 = none ∧
    (managerC6w.clear_non_persistent).2.elements =
      managerC6w.elements.filter (fun p => p.2.persistent) ∧
    (managerC6w.clear_non_persistent).2.current_step =
      managerC6w.current_step ∧
    (managerC6w.clear_non_persistent).2.history = managerC6w.history :=
  clear_non_persistent_amended managerC6w (by decide)

/-! ## C7: builder bookkeeping operations -/

/-- A fresh `ManimCodeBuilder()`. -/
def initBuilder : ManimCodeBuilder := {}

/-- C7 counterexample: on a fresh builder, `wait(1)` and `add_comment(...)`
leave the state manager untouched — `current_step` stays 0 and no snapshot is
pushed — refuting the claim that they call `next_step()`. -/
theorem builder_bookkeeping_cex :
    ((initBuilder.wait 1).2.state_manager.current_step = 0 ∧
     (initBuilder.wait 1).2.state_manager.history = []) ∧
    ((initBuilder.add_comment "note").2.state_manager.current_step = 0 ∧
     (initBuilder.add_comment "note").2.state_manager.history = []) ∧
    (0 : Nat) ≠ 1 := by
  exact ⟨⟨rfl, rfl⟩, ⟨rfl, rfl⟩, by simp⟩

/-- C7 (amended): of the three bookkeeping operations only
`start_step(step_number, description)` calls `next_step()` on the state
manager — incrementing `current_step` by 1 and pushing one snapshot of the
current elements onto the history stack; `wait(duration)` and
`add_comment(text)` merely append an operation to the log and leave the state
manager unchanged. -/
theorem builder_bookkeeping_amended (b : ManimCodeBuilder) (k : Nat)
    (d : String) (dur : ℚ) (c : String) :
    ((b.start_step k d).2.state_manager.current_step =
        b.state_manager.current_step + 1 ∧
     (b.start_step k d).2.state_manager.history =
        b.state_manager.history ++ [b.state_manager.elements] ∧
     (b.start_step k d).2.state_manager.elements = b.state_manager.elements) ∧
    (b.wait dur).2.state_manager = b.state_manager ∧
    (b.add_comment c).2.state_manager = b.state_manager :=
  ⟨⟨rfl, rfl, rfl⟩, rfl, rfl⟩

/-! ## C3 and C5: orchestrator retry bounds -/

theorem step_terminal (env : Env) (mc : Machine) (h : mc.node = .terminal) :
    step env mc = mc := by
  unfold step
  rw [h]

theorem stepIter_add (env : Env) (a b : Nat) (mc : Machine) :
    stepIter env (a + b) mc = stepIter env b (stepIter env a mc) := by
  induction a generalizing mc with
  | zero =>
    rw [Nat.zero_add]
    rfl
  | succ a ih =>
    have h1 : a + 1 + b = (a + b) + 1 := by omega
    rw [h1]
    show stepIter env (a + b) (step env mc) = stepIter env b (stepIter env (a + 1) mc)
    rw [ih (step env mc)]
    rfl

theorem stepIter_terminal (env : Env) (mc : Machine) (h : mc.node = .terminal)
    (k : Nat) : stepIter env k mc = mc := by
  induction k with
  | zero => rfl
  | succ k ih =>
    simp only [stepIter]
    rw [step_terminal env mc h]
    exact ih

/-- C3: if every `execute` invocation fails (returns no `video_path`), the graph
starting at `visualize` with `debug_attempts = 0` reaches the terminal node
after exactly 4 `execute` invocations, with `status = "fallback"` and
`debug_attempts = 3`, and it stays there forever — the `debug → execute` loop
never cycles indefinitely. -/
theorem execute_retry_ceiling (env : Env) (s0 : WorkflowState)
    (hfail : ∀ k, (env.execute_results k).video_path = none)
    (h0 : s0.debug_attempts = 0) :
    ((stepIter env 9 { node := .visualize, s := s0 }).node = .terminal ∧
     (stepIter env 9 { node := .visualize, s := s0 }).s.status = "fallback" ∧
     (stepIter env 9 { node := .visualize, s := s0 }).s.debug_attempts = 3 ∧
     (stepIter env 9 { node := .visualize, s := s0 }).execute_calls = 4) ∧
    (∀ k, 9 ≤ k →
      stepIter env k { node := .visualize, s := s0 } =
        stepIter env 9 { node := .visualize, s := s0 }) := by
  obtain ⟨iv, sa, mcode, vp, em, et, da, st⟩ := s0
  simp only at h0
  subst h0
  have hfix : stepIter env 9
      { node := .visualize, s := ⟨iv, sa, mcode, vp, em, et, 0, st⟩ } =
      { node := .terminal,
        s := ⟨iv, sa, env.debug_codes 2, none,
          (env.execute_results 3).error_message,
          (env.execute_results 3).error_type, 3, "fallback"⟩,
        solve_calls := 0, validate_calls := 0, visualize_calls := 1,
        execute_calls := 4, debug_calls := 3 } := by
    simp [stepIter, step, route_after_execute, hfail, ite_self]
  constructor
  · rw [hfix]
    exact ⟨rfl, rfl, rfl, rfl⟩
  · intro k hk
    obtain ⟨j, rfl⟩ : ∃ j, k = 9 + j := ⟨k - 9, by omega⟩
    rw [stepIter_add]
    exact stepIter_terminal env _ (by rw [hfix]) j

/-- A concrete environment in which every execute invocation fails with a
runtime error and every validation rejects. -/
def envAllFail : Env :=
  { validate_results := fun _ => false
    execute_results := fun _ => ⟨none, "NameError: x is not defined", "runtime"⟩
    visualize_codes := fun _ => ""
    debug_codes := fun _ => "" }

/-- Witness for C3: the ceiling, instantiated at `envAllFail` and the default
initial state. -/
theorem execute_retry_ceiling_witness :
    ((stepIter envAllFail 9 { node := .visualize, s := {} }).node = .terminal ∧
     (stepIter envAllFail 9 { node := .visualize, s := {} }).s.status =
        "fallback" ∧
     (stepIter envAllFail 9 { node := .visualize, s := {} }).s.debug_attempts
        = 3 ∧
     (stepIter envAllFail 9 { node := .visualize, s := {} }).execute_calls =
        4) ∧
    (∀ k, 9 ≤ k →
      stepIter envAllFail k { node := .visualize, s := {} } =
        stepIter envAllFail 9 { node := .visualize, s := {} }) :=
  execute_retry_ceiling envAllFail {} (fun _ => rfl) rfl

/-- C5: if every `validate` invocation yields `is_valid = False`, the graph
starting at `solve` with `solve_attempts = 0` reaches `visualize` after
exactly 4 transitions with exactly 2 solve invocations and
`solve_attempts = 2` (not 3, and no infinite loop); `visualize` is not visited
earlier, and every entry to `solve` increments `solve_attempts` by one. -/
theorem solve_retry_bound (env : Env) (s0 : WorkflowState)
    (hinv : ∀ k, env.validate_results k = false)
    (h0 : s0.solve_attempts = 0) :
    ((stepIter env 4 { node := .solve, s := s0 }).node = .visualize ∧
     (stepIter env 4 { node := .solve, s := s0 }).solve_calls = 2 ∧
     (stepIter env 4 { node := .solve, s := s0 }).s.solve_attempts = 2) ∧
    (∀ k, k < 4 → (stepIter env k { node := .solve, s := s0 }).node ≠
      .visualize) ∧
    (∀ mc : Machine, mc.node = .solve →
      (step env mc).s.solve_attempts = mc.s.solve_attempts + 1) := by
  obtain ⟨iv, sa, mcode, vp, em, et, da, st⟩ := s0
  simp only at h0
  subst h0
  refine ⟨?_, ?_, ?_⟩
  · simp [stepIter, step, route_after_validate, hinv]
  · intro k hk
    interval_cases k <;> simp [stepIter, step, route_after_validate, hinv]
  · intro mc h
    unfold step
    rw [h]

/-- Witness for C5: the bound, instantiated at `envAllFail` and the default
initial state. -/
theorem solve_retry_bound_witness :
    ((stepIter envAllFail 4 { node := .solve, s := {} }).node = .visualize ∧
     (stepIter envAllFail 4 { node := .solve, s := {} }).solve_calls = 2 ∧
     (stepIter envAllFail 4 { node := .solve, s := {} }).s.solve_attempts =
        2) ∧
    (∀ k, k < 4 → (stepIter envAllFail k { node := .solve, s := {} }).node ≠
      .visualize) ∧
    (∀ mc : Machine, mc.node = .solve →
      (step envAllFail mc).s.solve_attempts = mc.s.solve_attempts + 1) :=
  solve_retry_bound envAllFail {} (fun _ => rfl) rfl

/-! ## C9: duplicate-name behavior of `add_element` -/

/-- The only failure `add_element` ever signals is the zone-full error: there
is no duplicate-name check, and on failure the manager is unchanged. -/
theorem add_element_failure_shape (m : SceneStateManager) (n : String)
    (et : ElementType) (z : Zone) (w h : ℚ) (pers : Bool)
    (par : Option String)
    (hf : (m.add_element n et z w h pers par).1.success = false) :
    (m.add_element n et z w h pers par).1 = ⟨false, zoneFullMsg z n, none⟩ ∧
    (m.add_element n et z w h pers par).2 = m := by
  cases hc : m.calculate_safe_position z w h with
  | none => rw [add_element_of_calc_none hc]; exact ⟨rfl, rfl⟩
  | some b =>
    rw [add_element_of_calc_some hc] at hf
    exact absurd hf (by simp)

/-- A state whose single element `"a"` exactly fills the CENTER zone. -/
def managerFullCenter : SceneStateManager :=
  { elements := [("a", ⟨"a", ElementType.math, Zone.center, ⟨-6, -2, 6, 2⟩, 0,
      false, none, 0⟩)]
    current_step := 0
    history := [] }

theorem managerFull_calc_none :
    managerFullCenter.calculate_safe_position Zone.center 12 4 = none := by
  norm_num [SceneStateManager.calculate_safe_position, managerFullCenter,
    ZONE_BOUNDS, bbox_in_zone, centeredBox, BoundingBox.center,
    BoundingBox.overlaps, defaultMargin, List.find?, List.filter, List.any]

/-- A state whose single element `"a"` is a small box at the CENTER zone's
center. -/
def managerSmallCenter : SceneStateManager :=
  { elements := [("a", ⟨"a", ElementType.math, Zone.center, ⟨-1, -1, 1, 1⟩, 0,
      false, none, 0⟩)]
    current_step := 0
    history := [] }

theorem managerSmall_calc :
    managerSmallCenter.calculate_safe_position Zone.center 1 1 =
      some ⟨-11/2, -1/2, -9/2, 1/2⟩ := by
  norm_num [SceneStateManager.calculate_safe_position, managerSmallCenter,
    ZONE_BOUNDS, bbox_in_zone, centeredBox, BoundingBox.center,
    BoundingBox.overlaps, defaultMargin, List.find?, List.filter, List.any]

/-- C9: `add_element` on an already-used name never signals a duplicate-name
error — the only failure is the zone-full error, with the manager unchanged;
the existing same-named element is a live obstacle for the placement search
(re-adding `"a"` to a zone it already fills returns the zone-full failure even
though replacing would free that space); and when a candidate position is
found, the existing `SceneElement` is silently overwritten in place. -/
theorem duplicate_name_behavior :
    (∀ (m : SceneStateManager) (n : String) (et : ElementType) (z : Zone)
        (w h : ℚ) (pers : Bool) (par : Option String),
        (m.add_element n et z w h pers par).1.success = false →
        (m.add_element n et z w h pers par).1 =
          ⟨false, zoneFullMsg z n, none⟩ ∧
        (m.add_element n et z w h pers par).2 = m) ∧
    (managerFullCenter.elements.any (fun p => p.1 = "a") = true ∧
     managerFullCenter.add_element "a" ElementType.math Zone.center 12 4 false
        none =
       (⟨false, zoneFullMsg Zone.center "a", none⟩, managerFullCenter)) ∧
    (managerSmallCenter.elements.any (fun p => p.1 = "a") = true ∧
     (managerSmallCenter.add_element "a" ElementType.math Zone.center 1 1
        false none).1.success = true ∧
     (managerSmallCenter.add_element "a" ElementType.math Zone.center 1 1
        false none).2.elements =
       [("a", newElement "a" ElementType.math Zone.center
          ⟨-11/2, -1/2, -9/2, 1/2⟩ false none 0)]) := by
  refine ⟨fun m n et z w h pers par hf =>
      add_element_failure_shape m n et z w h pers par hf,
    ⟨by decide, ?_⟩, ⟨by decide, ?_, ?_⟩⟩
  · rw [add_element_of_calc_none managerFull_calc_none]
  · rw [add_element_of_calc_some managerSmall_calc]
  · rw [add_element_of_calc_some managerSmall_calc]
    simp [dictInsert, managerSmallCenter]

/-- Witness for C9: the universal failure-shape component, instantiated where
a placement failure occurs. -/
theorem duplicate_name_behavior_witness :
    (managerFullCenter.add_element "a" ElementType.math Zone.center 12 4 false
        none).1 = ⟨false, zoneFullMsg Zone.center "a", none⟩ ∧
    (managerFullCenter.add_element "a" ElementType.math Zone.center 12 4 false
        none).2 = managerFullCenter :=
  duplicate_name_behavior.1 managerFullCenter "a" ElementType.math Zone.center
    12 4 false none
    (by rw [add_element_of_calc_none managerFull_calc_none])
